import Mathlib

/-
Verification of the data-selection and chart-assembly pipeline of the
Abu Dhabi 2021 dashboard (src/app.py).

Conventions of the shallow embedding:
* A pandas DataFrame of lap records is a list of Lap values; a DataFrame of
  car telemetry samples is a list of TelemetrySample values.
* Mutable DataFrame objects live on an explicit heap, a list of frames.
  df.copy() allocates a fresh frame at the end of the heap; an in-place
  column assignment is List.set at the index of the frame being mutated.
  Chart builders that copy or mutate frames take the heap and the indices of
  their argument frames, and return the heap in its final state.
* A pandas Timedelta is a count of microseconds; NaT and NaN are none.
* A plotly figure is a plain Figure record; add_trace, add_vrect, add_vline
  and update_layout are the corresponding field updates.
* Each streamlit output call of main is collected into a list of Output
  values, and a Python exception escaping a function is an Except.error.
  A KeyError raised by the compound-to-color dict lookup is the error
  AppError.unknownCompound, and an IndexError raised by iloc on an empty
  frame is AppError.lapNotFound.
-/

namespace F1

deriving instance DecidableEq for Except

/-- A pandas Timedelta value: a signed count of microseconds. -/
structure Timedelta where
  micros : ℤ
deriving DecidableEq

/-- The pandas Timedelta.dt.total_seconds conversion used by the lap-time
chart builders. -/
def Timedelta.total_seconds (t : Timedelta) : ℚ :=
  (t.micros : ℚ) / 1000000

/-- Convenience constructor: a duration of m minutes, s seconds and ms
milliseconds. -/
def Timedelta.ofMinSecMs (m s ms : ℤ) : Timedelta :=
  ⟨((m * 60 + s) * 1000 + ms) * 1000⟩

/-- The value held by the Brake column of a telemetry frame: boolean in the
source data, integer after the astype coercion of create_brake_chart. -/
inductive BrakeVal where
  | ofBool (b : Bool)
  | ofInt (n : ℕ)
deriving DecidableEq

/-- The elementwise effect of Brake.astype on one cell: a boolean becomes
the integer 1 or 0; an integer stays itself. -/
def brakeCoerce : BrakeVal → BrakeVal
  | .ofBool b => .ofInt (if b then 1 else 0)
  | .ofInt n => .ofInt n

/-- Numeric reading of a Brake cell, used when the column is handed to the
charting layer. After the astype coercion every cell is ofInt. -/
def brakeNum : BrakeVal → ℚ
  | .ofBool b => if b then 1 else 0
  | .ofInt n => (n : ℚ)

/-- One row of a telemetry frame. -/
structure TelemetrySample where
  distance : ℚ
  speed : ℚ
  throttle : ℚ
  brake : BrakeVal
  nGear : ℕ
  rpm : ℕ
deriving DecidableEq

/-- A telemetry frame: the time series of one lap. -/
abbrev Telemetry := List TelemetrySample

/-- One row of the session lap table. lapTimeS is the LapTime_s column added
by the lap-time chart builders; it is none until it is assigned. -/
structure Lap where
  driver : String
  lapNumber : ℕ
  lapTime : Option Timedelta
  position : Option ℕ := none
  compound : String := "Medium"
  telemetry : Telemetry := []
  lapTimeS : Option ℚ := none
deriving DecidableEq

/-- One row of the hand-authored pit_data table of
create_tyre_strategy_chart. -/
structure StintRecord where
  driver : String
  tyre : String
  start : ℕ
  end_ : ℕ
  stint : ℕ
deriving DecidableEq

/-- One scatter trace of a figure. A y value of none is a NaN cell. -/
structure Series where
  name : String
  xs : List ℚ
  ys : List (Option ℚ)
  color : String
  mode : String
deriving DecidableEq

/-- A vertical region or line drawn over a figure by add_vrect or
add_vline. -/
inductive Overlay where
  | vrect (x0 x1 : ℚ) (label : String)
  | vline (x : ℚ) (label : String)
deriving DecidableEq

/-- One horizontal bar of the tyre-strategy timeline. -/
structure Bar where
  x : ℤ
  y : ℕ
  base : ℕ
  name : String
  color : String
deriving DecidableEq

/-- A declarative chart description, mirroring a plotly figure. -/
structure Figure where
  series : List Series
  overlays : List Overlay
  bars : List Bar
  title : String
  xTitle : String
  yTitle : String
  yReversed : Bool
  height : ℕ
deriving DecidableEq

/-- The figure go.Figure() starts from. -/
def Figure.empty : Figure :=
  { series := [], overlays := [], bars := [], title := "", xTitle := "",
    yTitle := "", yReversed := false, height := 450 }

/-- fig.add_trace appends one scatter trace. -/
def Figure.add_trace (f : Figure) (s : Series) : Figure :=
  { f with series := f.series ++ [s] }

/-- fig.add_vrect appends a vertical region overlay; it touches no other
field of the figure. -/
def Figure.add_vrect (f : Figure) (x0 x1 : ℚ) (label : String) : Figure :=
  { f with overlays := f.overlays ++ [Overlay.vrect x0 x1 label] }

/-- fig.add_vline appends a vertical line overlay; it touches no other
field of the figure. -/
def Figure.add_vline (f : Figure) (x : ℚ) (label : String) : Figure :=
  { f with overlays := f.overlays ++ [Overlay.vline x label] }

/-- fig.update_layout sets the title, axis titles, y-axis orientation and
height. yRev true models yaxis_autorange equal to reversed. -/
def Figure.update_layout (f : Figure) (title xTitle yTitle : String)
    (yRev : Bool) (height : ℕ) : Figure :=
  { f with title := title, xTitle := xTitle, yTitle := yTitle,
           yReversed := yRev, height := height }

/-- The plotted points of one trace: x values paired with y values. -/
def seriesPoints (s : Series) : List (ℚ × Option ℚ) :=
  s.xs.zip s.ys

/-- The screen height at which a y value is drawn: with a reversed y-axis a
numerically smaller value is drawn higher (larger screen height). -/
def drawnHeight (f : Figure) (y : ℚ) : ℚ :=
  if f.yReversed then -y else y

/-- The errors of the pipeline. noLapsFound, noCompletedLap and lapNotFound
are the selector failures of the spec taxonomy; unknownCompound is the
failure of the compound-to-color lookup of the strategy chart. -/
inductive AppError where
  | noLapsFound
  | noCompletedLap
  | lapNotFound
  | unknownCompound (c : String)
deriving DecidableEq

/-- One streamlit output of main. -/
inductive Output where
  | errorMsg (s : String)
  | warningMsg (s : String)
  | text (s : String)
  | metric (label value : String)
  | chart (f : Figure)
deriving DecidableEq

/-- The five navigation sections of the dashboard sidebar. -/
inductive AppSection where
  | overview
  | telemetryAnalysis
  | racePace
  | strategyAnalysis
  | finalMoments
deriving DecidableEq

/-- Modelled from the spec: the fastf1 method Laps.pick_drivers, external to
this repository, filters the lap table to the rows of one driver code,
preserving order. -/
def pick_drivers (laps : List Lap) (d : String) : List Lap :=
  laps.filter (fun l => l.driver == d)

/-- The laps holding a non-null lap time, each paired with that time. -/
def timed (laps : List Lap) : List (Timedelta × Lap) :=
  laps.filterMap (fun l => l.lapTime.map (fun t => (t, l)))

/-- Fold selecting the pair with the smallest lap time; on an exact tie the
earlier pair is kept. -/
def fastestFrom : Timedelta × Lap → List (Timedelta × Lap) → Timedelta × Lap
  | p, [] => p
  | p, q :: qs => fastestFrom (if q.1.micros < p.1.micros then q else p) qs

/-- Modelled from the spec: the fastf1 method Laps.pick_fastest, external to
this repository and called by get_telemetry_data, follows the spec contract
select_fastest_lap. It fails with NoLapsFoundError on a driver with zero
laps, fails with NoCompletedLapError when every lap time is null, and
otherwise returns a lap whose lap time is the minimum among the non-null
lap times. -/
def pick_fastest (laps : List Lap) : Except AppError Lap :=
  if laps.isEmpty then Except.error AppError.noLapsFound
  else
    match timed laps with
    | [] => Except.error AppError.noCompletedLap
    | p :: ps => Except.ok (fastestFrom p ps).2

/-- The spec name for the fastest-lap selection performed inside
get_telemetry_data: filter to the driver, then pick the fastest lap. -/
def select_fastest_lap (laps : List Lap) (d : String) : Except AppError Lap :=
  pick_fastest (pick_drivers laps d)

/-- Lap.get_telemetry: the telemetry series owned by a lap. -/
def get_telemetry (l : Lap) : Telemetry :=
  l.telemetry

/-- get_telemetry_data of src/app.py: the fastest-lap telemetry of both
drivers plus the full per-driver lap tables. A failure of either fastest-lap
selection escapes to the caller. -/
def get_telemetry_data (session : List Lap) :
    Except AppError (Telemetry × Telemetry × List Lap × List Lap) :=
  match select_fastest_lap session "VER" with
  | .error e => .error e
  | .ok ver_fastest =>
    match select_fastest_lap session "HAM" with
    | .error e => .error e
    | .ok ham_fastest =>
      .ok (get_telemetry ver_fastest, get_telemetry ham_fastest,
           pick_drivers session "VER", pick_drivers session "HAM")

/-- create_speed_chart of src/app.py. -/
def create_speed_chart (ver_tel ham_tel : Telemetry) : Figure :=
  ((Figure.empty.add_trace
      { name := "Verstappen", xs := ver_tel.map TelemetrySample.distance,
        ys := ver_tel.map (fun s => some s.speed),
        color := "#E74C3C", mode := "lines" }).add_trace
      { name := "Hamilton", xs := ham_tel.map TelemetrySample.distance,
        ys := ham_tel.map (fun s => some s.speed),
        color := "#3498DB", mode := "lines" }).update_layout
    "Speed vs Distance - Fastest Lap Comparison" "Distance (m)"
    "Speed (km per h)" false 500

/-- create_throttle_chart of src/app.py. -/
def create_throttle_chart (ver_tel ham_tel : Telemetry) : Figure :=
  ((Figure.empty.add_trace
      { name := "Verstappen", xs := ver_tel.map TelemetrySample.distance,
        ys := ver_tel.map (fun s => some s.throttle),
        color := "#FF6B35", mode := "lines" }).add_trace
      { name := "Hamilton", xs := ham_tel.map TelemetrySample.distance,
        ys := ham_tel.map (fun s => some s.throttle),
        color := "#2ECC71", mode := "lines" }).update_layout
    "Throttle Application vs Distance" "Distance (m)" "Throttle (pct)"
    false 500

/-- The whole-column effect of the astype(int) coercion applied to the
Brake column of a telemetry frame copy. -/
def astypeIntBrake (t : Telemetry) : Telemetry :=
  t.map (fun s => { s with brake := brakeCoerce s.brake })

/-- create_brake_chart of src/app.py over an explicit heap: it copies both
telemetry frames, coerces the Brake column of each copy in place, and plots
the coerced copies. The indices ver and ham point at the argument frames. -/
def create_brake_chart (h : List Telemetry) (ver ham : ℕ) :
    List Telemetry × Figure :=
  let verC := h.length
  let h1 := h ++ [h.getD ver []]
  let hamC := h1.length
  let h2 := h1 ++ [h1.getD ham []]
  let h3 := h2.set verC (astypeIntBrake (h2.getD verC []))
  let h4 := h3.set hamC (astypeIntBrake (h3.getD hamC []))
  let verT := h4.getD verC []
  let hamT := h4.getD hamC []
  let fig := ((Figure.empty.add_trace
      { name := "Verstappen", xs := verT.map TelemetrySample.distance,
        ys := verT.map (fun s => some (brakeNum s.brake)),
        color := "#9B59B6", mode := "lines" }).add_trace
      { name := "Hamilton", xs := hamT.map TelemetrySample.distance,
        ys := hamT.map (fun s => some (brakeNum s.brake)),
        color := "#1ABC9C", mode := "lines" }).update_layout
    "Brake Application vs Distance" "Distance (m)" "Brake (On and Off)"
    false 500
  (h4, fig)

/-- create_gear_chart of src/app.py. -/
def create_gear_chart (ver_tel ham_tel : Telemetry) : Figure :=
  ((Figure.empty.add_trace
      { name := "Verstappen", xs := ver_tel.map TelemetrySample.distance,
        ys := ver_tel.map (fun s => some (s.nGear : ℚ)),
        color := "#E74C3C", mode := "lines" }).add_trace
      { name := "Hamilton", xs := ham_tel.map TelemetrySample.distance,
        ys := ham_tel.map (fun s => some (s.nGear : ℚ)),
        color := "#3498DB", mode := "lines" }).update_layout
    "Gear Usage vs Distance" "Distance (m)" "Gear Number" false 500

/-- create_rpm_chart of src/app.py. -/
def create_rpm_chart (ver_tel ham_tel : Telemetry) : Figure :=
  ((Figure.empty.add_trace
      { name := "Verstappen", xs := ver_tel.map TelemetrySample.distance,
        ys := ver_tel.map (fun s => some (s.rpm : ℚ)),
        color := "#E74C3C", mode := "lines" }).add_trace
      { name := "Hamilton", xs := ham_tel.map TelemetrySample.distance,
        ys := ham_tel.map (fun s => some (s.rpm : ℚ)),
        color := "#3498DB", mode := "lines" }).update_layout
    "RPM vs Distance" "Distance (m)" "RPM" false 500

/-- The notnull test on the LapTime column. -/
def notnullLap (l : Lap) : Bool :=
  l.lapTime.isSome

/-- The row effect of the column assignment LapTime_s equal to
LapTime.dt.total_seconds. -/
def assignLapTimeS (l : Lap) : Lap :=
  { l with lapTimeS := l.lapTime.map Timedelta.total_seconds }

/-- The LapNumber cell of a row as the plotted x value. -/
def lapNumQ (l : Lap) : ℚ :=
  (l.lapNumber : ℚ)

/-- create_laptime_chart of src/app.py over an explicit heap: it copies the
non-null-lap-time rows of each lap frame, assigns the LapTime_s column on
each copy in place, plots the copies, and then adds the safety-car region
and final-lap line overlays. -/
def create_laptime_chart (h : List (List Lap)) (ver ham : ℕ) :
    List (List Lap) × Figure :=
  let verC := h.length
  let h1 := h ++ [(h.getD ver []).filter notnullLap]
  let hamC := h1.length
  let h2 := h1 ++ [(h1.getD ham []).filter notnullLap]
  let h3 := h2.set verC ((h2.getD verC []).map assignLapTimeS)
  let h4 := h3.set hamC ((h3.getD hamC []).map assignLapTimeS)
  let verClean := h4.getD verC []
  let hamClean := h4.getD hamC []
  let fig := ((((Figure.empty.add_trace
      { name := "Verstappen", xs := verClean.map lapNumQ,
        ys := verClean.map Lap.lapTimeS,
        color := "#E74C3C", mode := "lines+markers" }).add_trace
      { name := "Hamilton", xs := hamClean.map lapNumQ,
        ys := hamClean.map Lap.lapTimeS,
        color := "#3498DB", mode := "lines+markers" }).add_vrect 53 56
      "Safety Car").add_vline 58 "Final Lap").update_layout
    "Lap Time Evolution Throughout the Race" "Lap Number"
    "Lap Time (seconds)" false 600
  (h4, fig)

/-- create_final_laps_chart of src/app.py over an explicit heap: the same
cleaning and conversion as the lap-time chart, then a slice keeping the
rows with LapNumber at least 49. -/
def create_final_laps_chart (h : List (List Lap)) (ver ham : ℕ) :
    List (List Lap) × Figure :=
  let verC := h.length
  let h1 := h ++ [(h.getD ver []).filter notnullLap]
  let hamC := h1.length
  let h2 := h1 ++ [(h1.getD ham []).filter notnullLap]
  let h3 := h2.set verC ((h2.getD verC []).map assignLapTimeS)
  let h4 := h3.set hamC ((h3.getD hamC []).map assignLapTimeS)
  let ver_final := (h4.getD verC []).filter (fun l => decide (49 ≤ l.lapNumber))
  let ham_final := (h4.getD hamC []).filter (fun l => decide (49 ≤ l.lapNumber))
  let fig := ((Figure.empty.add_trace
      { name := "Verstappen", xs := ver_final.map lapNumQ,
        ys := ver_final.map Lap.lapTimeS,
        color := "#E74C3C", mode := "lines+markers" }).add_trace
      { name := "Hamilton", xs := ham_final.map lapNumQ,
        ys := ham_final.map Lap.lapTimeS,
        color := "#3498DB", mode := "lines+markers" }).update_layout
    "Final 10 Laps - The Championship Decider" "Lap Number"
    "Lap Time (seconds)" false 500
  (h4, fig)

/-- The hand-authored stint table of create_tyre_strategy_chart. -/
def pit_data : List StintRecord :=
  [{ driver := "HAM", tyre := "Medium", start := 0, end_ := 14, stint := 0 },
   { driver := "HAM", tyre := "Hard", start := 14, end_ := 58, stint := 1 },
   { driver := "VER", tyre := "Medium", start := 0, end_ := 36, stint := 2 },
   { driver := "VER", tyre := "Hard", start := 36, end_ := 53, stint := 3 },
   { driver := "VER", tyre := "Soft", start := 53, end_ := 58, stint := 4 }]

/-- The fixed compound-to-color palette of create_tyre_strategy_chart; a
compound outside the palette has no entry, and looking it up raises. -/
def colors (tyre : String) : Option String :=
  if tyre = "Soft" then some "#E74C3C"
  else if tyre = "Hard" then some "#ECF0F1"
  else if tyre = "Medium" then some "#F39C12"
  else none

/-- The row loop of create_tyre_strategy_chart: one horizontal bar per stint
record, colored by the palette lookup. A row whose compound is missing from
the palette makes the loop fail (the KeyError of the dict lookup), before
any later row is processed. -/
def strategyBars : List StintRecord → Except AppError (List Bar)
  | [] => Except.ok []
  | r :: rs =>
    match colors r.tyre with
    | none => Except.error (AppError.unknownCompound r.tyre)
    | some col =>
      match strategyBars rs with
      | .error e => .error e
      | .ok bars =>
        .ok ({ x := (r.end_ : ℤ) - (r.start : ℤ), y := r.stint,
               base := r.start, name := r.driver ++ " - " ++ r.tyre,
               color := col } :: bars)

/-- create_tyre_strategy_chart of src/app.py: the bar loop over the static
pit_data table. -/
def create_tyre_strategy_chart : Except AppError Figure :=
  match strategyBars pit_data with
  | .error e => .error e
  | .ok bars =>
    .ok { series := [], overlays := [], bars := bars,
          title := "Tyre Strategy Timeline - The Winning Decision",
          xTitle := "Lap Number", yTitle := "", yReversed := false,
          height := 400 }

/-- create_position_chart of src/app.py: per-lap race positions of both
drivers with a reversed y-axis. -/
def create_position_chart (session : List Lap) : Figure :=
  let ver_laps := pick_drivers session "VER"
  let ham_laps := pick_drivers session "HAM"
  (((Figure.empty.add_trace
      { name := "Verstappen", xs := ver_laps.map lapNumQ,
        ys := ver_laps.map (fun l => l.position.map (fun p => (p : ℚ))),
        color := "#E74C3C", mode := "lines+markers" }).add_trace
      { name := "Hamilton", xs := ham_laps.map lapNumQ,
        ys := ham_laps.map (fun l => l.position.map (fun p => (p : ℚ))),
        color := "#3498DB", mode := "lines+markers" }).add_vline 58
    "Final Lap Overtake").update_layout
    "Race Position Timeline - The Championship Moment" "Lap Number"
    "Race Position" true 400

/-- The final-lap speed figure built inside the guarded block of the Final
Moments section. -/
def finalLapFigure (ver_tel_58 ham_tel_58 : Telemetry) : Figure :=
  ((Figure.empty.add_trace
      { name := "Verstappen", xs := ver_tel_58.map TelemetrySample.distance,
        ys := ver_tel_58.map (fun s => some s.speed),
        color := "#E74C3C", mode := "lines" }).add_trace
      { name := "Hamilton", xs := ham_tel_58.map TelemetrySample.distance,
        ys := ham_tel_58.map (fun s => some s.speed),
        color := "#3498DB", mode := "lines" }).update_layout
    "Final Lap Speed Comparison - The Championship Moment" "Distance (m)"
    "Speed (km per h)" false 500

/-- The body of the guarded try block of the Final Moments section: select
lap 58 of each driver (iloc on an empty selection raises, modelled as
lapNotFound) and build the final-lap speed figure from their telemetry. -/
def lap58Chart (session : List Lap) : Except AppError Figure :=
  match (pick_drivers session "VER").filter (fun l => l.lapNumber == 58) with
  | [] => Except.error AppError.lapNotFound
  | ver_lap58 :: _ =>
    match (pick_drivers session "HAM").filter (fun l => l.lapNumber == 58) with
    | [] => Except.error AppError.lapNotFound
    | ham_lap58 :: _ =>
      Except.ok (finalLapFigure (get_telemetry ver_lap58)
                                (get_telemetry ham_lap58))

/-- load_race_data of src/app.py: the whole body sits in one try block, so
any exception of the session load yields None together with the error
message displayed from inside the function. The provider outcome is passed
in explicitly. -/
def load_race_data (provider : Except String (List Lap)) :
    Option (List Lap) × List Output :=
  match provider with
  | .ok session => (some session, [])
  | .error e => (none, [Output.errorMsg ("Error loading data: " ++ e)])

/-- The message main shows when load_race_data returned None. -/
def failedLoadMsg : String :=
  "Failed to load race data. Please check your internet connection and try again."

/-- The warning substituted by the only try block of main. -/
def finalLapWarning : String :=
  "Final lap telemetry data not available for detailed analysis."

/-- The markdown header above the guarded final-lap block. -/
def lap58Header : String :=
  "Lap 58 - The Overtake"

/-- The closing markdown of the Final Moments section. -/
def decisiveText : String :=
  "The Decisive Moment - DRS on the main straight, soft tyre advantage, overtake before Turn 5, championship decided."

/-- The static outputs of the Overview section. -/
def overviewOutputs : List Output :=
  [Output.metric "Race Winner" "Max Verstappen",
   Output.metric "Championship Decided" "Final Lap",
   Output.metric "Key Factor" "Tyre Strategy",
   Output.text "December 12 2021 - one of the most dramatic conclusions in F1."]

/-- main of src/app.py: load the session, fetch telemetry data for both
drivers (unguarded - a selector failure escapes), then dispatch on the
selected section. Only the final-lap telemetry block of the Final Moments
section is wrapped in a try that substitutes a warning message. Static page
chrome emitted before the load is omitted. -/
def main (sec : AppSection) (provider : Except String (List Lap)) :
    Except AppError (List Output) :=
  match load_race_data provider with
  | (none, outs) => Except.ok (outs ++ [Output.errorMsg failedLoadMsg])
  | (some session, outs) =>
    match get_telemetry_data session with
    | .error e => .error e
    | .ok (ver_tel, ham_tel, ver_laps, ham_laps) =>
      match sec with
      | .overview => .ok (outs ++ overviewOutputs)
      | .telemetryAnalysis =>
        .ok (outs ++
          [Output.chart (create_speed_chart ver_tel ham_tel),
           Output.chart (create_throttle_chart ver_tel ham_tel),
           Output.chart (create_brake_chart [ver_tel, ham_tel] 0 1).2,
           Output.chart (create_gear_chart ver_tel ham_tel),
           Output.chart (create_rpm_chart ver_tel ham_tel)])
      | .racePace =>
        .ok (outs ++
          [Output.chart (create_laptime_chart [ver_laps, ham_laps] 0 1).2,
           Output.chart (create_final_laps_chart [ver_laps, ham_laps] 0 1).2])
      | .strategyAnalysis =>
        match create_tyre_strategy_chart with
        | .error e => .error e
        | .ok fig => .ok (outs ++ [Output.chart fig])
      | .finalMoments =>
        let block :=
          match lap58Chart session with
          | .ok fig => Output.chart fig
          | .error _ => Output.warningMsg finalLapWarning
        .ok (outs ++
          [Output.chart (create_position_chart session),
           Output.text lap58Header, block, Output.text decisiveText])

/-- Modelled from the spec: the lap-time chart policy in its own words -
drop the rows with a null lap time first, and only then convert the
remaining lap times to seconds. Used as the reference the chart output is
compared with. -/
def specCleanSeconds (laps : List Lap) : List (Option ℚ) :=
  (laps.filter (fun l => l.lapTime.isSome)).map
    (fun l => l.lapTime.map Timedelta.total_seconds)

/-- The stint rows of one driver, in table order. -/
def stintsOf (d : String) : List StintRecord :=
  pit_data.filter (fun r => r.driver == d)

/-- Checks that consecutive stint records tile the interval from lo to hi:
the first starts at lo, each record ends where the next starts, and the
last ends at hi. -/
def chainB : List StintRecord → ℕ → ℕ → Bool
  | [], lo, hi => lo == hi
  | r :: rs, lo, hi => r.start == lo && chainB rs r.end_ hi

/-- Two stint ranges, start inclusive and end exclusive, do not overlap. -/
def disjointB (r s : StintRecord) : Bool :=
  r.end_ ≤ s.start || s.end_ ≤ r.start

/-- Every pair of distinct records in the list is non-overlapping. -/
def pairwiseDisjointB : List StintRecord → Bool
  | [] => true
  | r :: rs => rs.all (disjointB r) && pairwiseDisjointB rs

/-- Every lap from 0 to n - 1 lies in some stint range of the list. -/
def coverB (rows : List StintRecord) (n : ℕ) : Bool :=
  (List.range n).all (fun lap => rows.any (fun r => r.start ≤ lap && lap < r.end_))

/-- Demo lap table: the end-to-end scenario of the spec, driver A with lap
times 90.0s, 88.2s and null, driver B with 91.0s, 87.0s and 86.5s, plus a
driver N whose only lap has a null lap time. -/
def demoLaps : List Lap :=
  [{ driver := "A", lapNumber := 1, lapTime := some (Timedelta.ofMinSecMs 1 30 0) },
   { driver := "A", lapNumber := 2, lapTime := some (Timedelta.ofMinSecMs 1 28 200) },
   { driver := "A", lapNumber := 3, lapTime := none },
   { driver := "B", lapNumber := 1, lapTime := some (Timedelta.ofMinSecMs 1 31 0) },
   { driver := "B", lapNumber := 2, lapTime := some (Timedelta.ofMinSecMs 1 27 0) },
   { driver := "B", lapNumber := 3, lapTime := some (Timedelta.ofMinSecMs 1 26 500) },
   { driver := "N", lapNumber := 1, lapTime := none }]

/-- Demo heap holding the lap frames of drivers A and B of the spec
scenario. -/
def demoHD : List (List Lap) :=
  [demoLaps.filter (fun l => l.driver == "A"),
   demoLaps.filter (fun l => l.driver == "B")]

/-- A full 58-lap race for one driver, every lap time non-null. -/
def demoRace (d : String) : List Lap :=
  (List.range 58).map (fun i =>
    { driver := d, lapNumber := i + 1,
      lapTime := some (Timedelta.ofMinSecMs 1 30 0) })

/-- Demo heap with full 58-lap frames for both drivers. -/
def demoFull : List (List Lap) :=
  [demoRace "VER", demoRace "HAM"]

/-- A telemetry frame whose Brake column is the given boolean sequence. -/
def telOfBools (bs : List Bool) : Telemetry :=
  bs.map (fun b =>
    { distance := 0, speed := 0, throttle := 0, brake := BrakeVal.ofBool b,
      nGear := 1, rpm := 0 })

/-- Demo telemetry heap for the brake coercion example. -/
def demoBrakeHeap : List Telemetry :=
  [telOfBools [true, false, true], telOfBools [false, true]]

/-- A session where only VER has laps, so the HAM fastest-lap selection of
get_telemetry_data fails. -/
def demoVerOnly : List Lap :=
  [{ driver := "VER", lapNumber := 1, lapTime := some (Timedelta.ofMinSecMs 1 30 0) }]

/-- A session where both drivers have a completed lap 1 but no lap 58, so
only the guarded final-lap block fails. -/
def demoNo58 : List Lap :=
  [{ driver := "VER", lapNumber := 1, lapTime := some (Timedelta.ofMinSecMs 1 30 0) },
   { driver := "HAM", lapNumber := 1, lapTime := some (Timedelta.ofMinSecMs 1 31 0) }]

/-- Demo stint record with the out-of-palette compound Intermediate. -/
def demoIntermediateStint : StintRecord :=
  { driver := "VER", tyre := "Intermediate", start := 0, end_ := 10, stint := 0 }

/-- True on every output that is not a chart. -/
def chartFree : Output → Bool
  | .chart _ => false
  | _ => true

theorem getD_append_lt {α : Type} {h : List α} {A : α} {i : ℕ} {d : α}
    (hi : i < h.length) : (h ++ [A]).getD i d = h.getD i d := by
  rw [List.getD_eq_getElem?_getD, List.getElem?_append_left hi,
    ← List.getD_eq_getElem?_getD]

theorem getD_snoc_snoc_fst {α : Type} (h : List α) (A B : α) (d : α) :
    ((h ++ [A]) ++ [B]).getD h.length d = A := by
  rw [List.getD_eq_getElem?_getD,
    List.getElem?_append_left
      (by simp only [List.length_append, List.length_cons, List.length_nil]; omega),
    List.getElem?_append_right (Nat.le_refl _)]
  simp

theorem getD_set_snoc_snd {α : Type} (h : List α) (A B u : α) (d : α) :
    (((h ++ [A]) ++ [B]).set h.length u).getD ((h ++ [A]).length) d = B := by
  rw [List.getD_eq_getElem?_getD,
    List.getElem?_set_ne
      (by simp only [List.length_append, List.length_cons, List.length_nil]; omega),
    List.getElem?_append_right (Nat.le_refl _)]
  simp

theorem getD_heap_fst {α : Type} (h : List α) (A B u v : α) (d : α) :
    ((((h ++ [A]) ++ [B]).set h.length u).set ((h ++ [A]).length) v).getD
      h.length d = u := by
  rw [List.getD_eq_getElem?_getD,
    List.getElem?_set_ne
      (by simp only [List.length_append, List.length_cons, List.length_nil]; omega),
    List.getElem?_set_eq_of_lt u
      (by simp only [List.length_append, List.length_cons, List.length_nil]; omega)]
  rfl

theorem getD_heap_snd {α : Type} (h : List α) (A B u v : α) (d : α) :
    ((((h ++ [A]) ++ [B]).set h.length u).set ((h ++ [A]).length) v).getD
      ((h ++ [A]).length) d = v := by
  rw [List.getD_eq_getElem?_getD,
    List.getElem?_set_eq_of_lt v
      (by simp only [List.length_set, List.length_append, List.length_cons,
        List.length_nil]; omega)]
  rfl

theorem getD_heap_preserve {α : Type} (h : List α) (A B u v : α) (d : α)
    (i : ℕ) (hi : i < h.length) :
    ((((h ++ [A]) ++ [B]).set h.length u).set ((h ++ [A]).length) v).getD i d
      = h.getD i d := by
  rw [List.getD_eq_getElem?_getD,
    List.getElem?_set_ne
      (by simp only [List.length_append, List.length_cons, List.length_nil]; omega),
    List.getElem?_set_ne (by omega),
    List.getElem?_append_left
      (by simp only [List.length_append, List.length_cons, List.length_nil]; omega),
    List.getElem?_append_left hi, ← List.getD_eq_getElem?_getD]

theorem fastestFrom_mem (p : Timedelta × Lap) (ps : List (Timedelta × Lap)) :
    fastestFrom p ps ∈ p :: ps := by
  induction ps generalizing p with
  | nil => simp [fastestFrom]
  | cons q qs ih =>
    simp only [fastestFrom]
    have h := ih (if q.1.micros < p.1.micros then q else p)
    rcases List.mem_cons.mp h with h1 | h1
    · rw [h1]
      split
      · exact List.mem_cons_of_mem _ (List.mem_cons_self _ _)
      · exact List.mem_cons_self _ _
    · exact List.mem_cons_of_mem _ (List.mem_cons_of_mem _ h1)

theorem fastestFrom_le (p : Timedelta × Lap) (ps : List (Timedelta × Lap)) :
    ∀ q ∈ p :: ps, (fastestFrom p ps).1.micros ≤ q.1.micros := by
  induction ps generalizing p with
  | nil =>
    intro q hq
    rcases List.mem_cons.mp hq with rfl | h
    · simp [fastestFrom]
    · simp at h
  | cons r rs ih =>
    intro q hq
    simp only [fastestFrom]
    have hbase := ih (if r.1.micros < p.1.micros then r else p)
      (if r.1.micros < p.1.micros then r else p) (List.mem_cons_self _ _)
    rcases List.mem_cons.mp hq with rfl | hq'
    · by_cases hc : r.1.micros < q.1.micros
      · simp only [if_pos hc] at hbase ⊢
        omega
      · simp only [if_neg hc] at hbase ⊢
        exact hbase
    · rcases List.mem_cons.mp hq' with rfl | hq''
      · by_cases hc : q.1.micros < p.1.micros
        · simp only [if_pos hc] at hbase ⊢
          exact hbase
        · simp only [if_neg hc] at hbase ⊢
          omega
      · exact ih _ q (List.mem_cons_of_mem _ hq'')

theorem timed_mem {laps : List Lap} {p : Timedelta × Lap}
    (hp : p ∈ timed laps) : p.2 ∈ laps ∧ p.2.lapTime = some p.1 := by
  simp only [timed, List.mem_filterMap] at hp
  obtain ⟨l, hl, hmap⟩ := hp
  cases ht : l.lapTime with
  | none => rw [ht] at hmap; cases hmap
  | some t =>
    rw [ht] at hmap
    simp only [Option.map_some'] at hmap
    obtain rfl := Option.some.inj hmap
    exact ⟨hl, ht⟩

theorem timed_map_fst (laps : List Lap) :
    (timed laps).map Prod.fst = laps.filterMap Lap.lapTime := by
  induction laps with
  | nil => rfl
  | cons l ls ih =>
    cases ht : l.lapTime with
    | none => simp [timed, List.filterMap_cons, ht] at ih ⊢; exact ih
    | some t => simp [timed, List.filterMap_cons, ht] at ih ⊢; exact ih

theorem timed_nil_iff (laps : List Lap) :
    timed laps = [] ↔ ∀ l ∈ laps, l.lapTime = none := by
  simp [timed, List.filterMap_eq_nil_iff, Option.map_eq_none']

/-- Claim C1: for every driver code, the fastest-lap selection used by
get_telemetry_data fails with NoLapsFoundError when the driver has zero laps
in the lap table, fails with NoCompletedLapError when the driver has laps
but every lap time is null, and when at least one lap time is non-null it
returns a lap whose lap time equals the minimum among the non-null lap
times of that driver. -/
theorem c1_fastest_lap_selection (laps : List Lap) (d : String) :
    (pick_drivers laps d = [] →
      select_fastest_lap laps d = Except.error AppError.noLapsFound) ∧
    (pick_drivers laps d ≠ [] →
      (∀ l ∈ pick_drivers laps d, l.lapTime = none) →
      select_fastest_lap laps d = Except.error AppError.noCompletedLap) ∧
    ((∃ l ∈ pick_drivers laps d, l.lapTime.isSome) →
      ∃ lap t, select_fastest_lap laps d = Except.ok lap ∧
        lap.lapTime = some t ∧
        t ∈ (pick_drivers laps d).filterMap Lap.lapTime ∧
        ∀ u ∈ (pick_drivers laps d).filterMap Lap.lapTime,
          t.micros ≤ u.micros) := by
  refine ⟨?_, ?_, ?_⟩
  · intro h
    simp [select_fastest_lap, pick_fastest, h]
  · intro hne hnull
    have ht : timed (pick_drivers laps d) = [] := (timed_nil_iff _).mpr hnull
    simp only [select_fastest_lap, pick_fastest]
    rw [if_neg (by simpa [List.isEmpty_iff] using hne), ht]
  · rintro ⟨l, hl, hsome⟩
    obtain ⟨t0, ht0⟩ := Option.isSome_iff_exists.mp hsome
    have htne : timed (pick_drivers laps d) ≠ [] := by
      intro hnil
      rw [timed_nil_iff] at hnil
      rw [hnil l hl] at ht0
      cases ht0
    obtain ⟨p, ps, hps⟩ : ∃ p ps, timed (pick_drivers laps d) = p :: ps := by
      cases h : timed (pick_drivers laps d) with
      | nil => exact absurd h htne
      | cons p ps => exact ⟨p, ps, rfl⟩
    have hdne : pick_drivers laps d ≠ [] := by
      intro h
      rw [h] at hl
      cases hl
    have hm : fastestFrom p ps ∈ timed (pick_drivers laps d) := by
      rw [hps]; exact fastestFrom_mem p ps
    refine ⟨(fastestFrom p ps).2, (fastestFrom p ps).1, ?_, (timed_mem hm).2, ?_, ?_⟩
    · simp only [select_fastest_lap, pick_fastest]
      rw [if_neg (by simpa [List.isEmpty_iff] using hdne), hps]
    · rw [← timed_map_fst]
      exact List.mem_map_of_mem Prod.fst hm
    · intro u hu
      rw [← timed_map_fst] at hu
      obtain ⟨q, hq, rfl⟩ := List.mem_map.mp hu
      rw [hps] at hq
      exact fastestFrom_le p ps q hq

theorem cleanSeconds_eq (L : List Lap) :
    ((L.filter notnullLap).map assignLapTimeS).map Lap.lapTimeS
      = specCleanSeconds L := by
  rw [List.map_map]
  rfl

theorem specCleanSeconds_isSome (L : List Lap) :
    (specCleanSeconds L).all (fun y => y.isSome) = true := by
  rw [List.all_eq_true]
  intro x hx
  simp only [specCleanSeconds, List.mem_map, List.mem_filter] at hx
  obtain ⟨l, ⟨-, hsome⟩, rfl⟩ := hx
  cases ht : l.lapTime with
  | none => rw [ht] at hsome; cases hsome
  | some t => rfl

theorem laptime_series_ys (h : List (List Lap)) (ver ham : ℕ)
    (hh : ham < h.length) :
    ((create_laptime_chart h ver ham).2.series.map Series.ys)
      = [specCleanSeconds (h.getD ver []), specCleanSeconds (h.getD ham [])] := by
  simp only [create_laptime_chart, Figure.empty, Figure.add_trace,
    Figure.add_vrect, Figure.add_vline, Figure.update_layout,
    getD_snoc_snoc_fst, getD_set_snoc_snd, getD_heap_fst, getD_heap_snd,
    getD_append_lt hh, List.nil_append, List.cons_append, List.map_cons,
    List.map_nil]
  rw [cleanSeconds_eq, cleanSeconds_eq]

/-- Claim C2: the lap-time chart builder first drops every lap record whose
lap time is null and only then converts the remaining lap times to seconds,
so each plotted y list equals the spec policy applied to the input frame and
contains no null value; and a duration of 1 minute 25.5 seconds converts to
85.5. -/
theorem c2_laptime_filter_before_convert (h : List (List Lap)) (ver ham : ℕ)
    (hh : ham < h.length) :
    ((create_laptime_chart h ver ham).2.series.map Series.ys)
      = [specCleanSeconds (h.getD ver []), specCleanSeconds (h.getD ham [])] ∧
    (((create_laptime_chart h ver ham).2.series.map Series.ys).all
        (fun ys => ys.all (fun y => y.isSome))) = true ∧
    Timedelta.total_seconds (Timedelta.ofMinSecMs 1 25 500) = 85.5 := by
  refine ⟨laptime_series_ys h ver ham hh, ?_, ?_⟩
  · rw [laptime_series_ys h ver ham hh]
    simp [specCleanSeconds_isSome]
  · simp [Timedelta.total_seconds, Timedelta.ofMinSecMs]
    norm_num

/-- Witness for C2 on the demo heap of the spec scenario: driver A keeps
laps 1 and 2 (90.0 and 88.2 seconds), driver B keeps all three laps. -/
theorem c2_laptime_filter_before_convert_witness :
    ((create_laptime_chart demoHD 0 1).2.series.map Series.ys)
      = [specCleanSeconds (demoHD.getD 0 []), specCleanSeconds (demoHD.getD 1 [])] ∧
    (((create_laptime_chart demoHD 0 1).2.series.map Series.ys).all
        (fun ys => ys.all (fun y => y.isSome))) = true ∧
    Timedelta.total_seconds (Timedelta.ofMinSecMs 1 25 500) = 85.5 :=
  c2_laptime_filter_before_convert demoHD 0 1 (by decide)

theorem final_slice (L : List Lap) :
    ((L.filter (fun l => decide (49 ≤ l.lapNumber))).map lapNumQ).zip
      ((L.filter (fun l => decide (49 ≤ l.lapNumber))).map Lap.lapTimeS)
    = ((L.map lapNumQ).zip (L.map Lap.lapTimeS)).filter
        (fun p => decide (49 ≤ p.1)) := by
  rw [List.zip_map', List.zip_map', List.filter_map]
  congr 1
  apply List.filter_congr
  intro l _
  simp only [Function.comp_apply, lapNumQ]
  rw [decide_eq_decide]
  norm_cast

/-- Claim C5: the final-laps chart is a pure slice of the full lap-time
chart by the lap-number lower bound 49: its plotted points are exactly the
points of the lap-time chart whose lap number is at least 49, and on a full
58-lap race with no null lap times it plots exactly laps 49 to 58 for each
driver. -/
theorem c5_final_laps_pure_slice :
    (∀ (h : List (List Lap)) (ver ham : ℕ),
        (create_final_laps_chart h ver ham).2.series.map seriesPoints
          = (create_laptime_chart h ver ham).2.series.map
              (fun s => (seriesPoints s).filter (fun p => decide (49 ≤ p.1)))) ∧
    (create_final_laps_chart demoFull 0 1).2.series.map Series.xs
      = [[49, 50, 51, 52, 53, 54, 55, 56, 57, 58],
         [49, 50, 51, 52, 53, 54, 55, 56, 57, 58]] := by
  constructor
  · intro h ver ham
    simp only [create_final_laps_chart, create_laptime_chart, Figure.empty,
      Figure.add_trace, Figure.add_vrect, Figure.add_vline,
      Figure.update_layout, getD_snoc_snoc_fst, getD_set_snoc_snd,
      getD_heap_fst, getD_heap_snd, List.nil_append, List.cons_append,
      List.map_cons, List.map_nil, seriesPoints]
    rw [final_slice, final_slice]
  · decide

theorem brake_col (A : Telemetry) (bs : List Bool)
    (hb : A.map TelemetrySample.brake = bs.map BrakeVal.ofBool) :
    (astypeIntBrake A).map (fun s => some (brakeNum s.brake))
      = bs.map (fun b => some (if b then (1 : ℚ) else 0)) := by
  have h1 : (astypeIntBrake A).map (fun s => some (brakeNum s.brake))
      = (A.map TelemetrySample.brake).map
          (fun v => some (brakeNum (brakeCoerce v))) := by
    simp [astypeIntBrake, List.map_map, Function.comp]
  rw [h1, hb, List.map_map]
  apply List.map_congr_left
  intro b _
  cases b <;> simp [brakeCoerce, brakeNum, Function.comp]

/-- Claim C6: the brake coercion performed by create_brake_chart maps a
boolean brake column to the 0 and 1 integer column of the same length with
order preserved: the plotted y lists are exactly the elementwise image of
the boolean input columns. -/
theorem c6_brake_coercion (h : List Telemetry) (ver ham : ℕ)
    (hlen : ham < h.length) (bs cs : List Bool)
    (hv : (h.getD ver []).map TelemetrySample.brake = bs.map BrakeVal.ofBool)
    (hh : (h.getD ham []).map TelemetrySample.brake = cs.map BrakeVal.ofBool) :
    ((create_brake_chart h ver ham).2.series.map Series.ys)
      = [bs.map (fun b => some (if b then (1 : ℚ) else 0)),
         cs.map (fun b => some (if b then (1 : ℚ) else 0))] := by
  simp only [create_brake_chart, Figure.empty, Figure.add_trace,
    Figure.update_layout, getD_snoc_snoc_fst, getD_set_snoc_snd,
    getD_heap_fst, getD_heap_snd, getD_append_lt hlen, List.nil_append,
    List.cons_append, List.map_cons, List.map_nil]
  rw [brake_col _ _ hv, brake_col _ _ hh]

/-- Witness for C6: the boolean brake sequence true, false, true is plotted
as 1, 0, 1 and the sequence false, true as 0, 1, with length and order
preserved. -/
theorem c6_brake_coercion_witness :
    ((create_brake_chart demoBrakeHeap 0 1).2.series.map Series.ys)
      = [[some 1, some 0, some 1], [some 0, some 1]] := by
  have h := c6_brake_coercion demoBrakeHeap 0 1 (by decide)
    [true, false, true] [false, true] (by decide) (by decide)
  simpa using h

/-- Claim C8: no chart builder mutates the frames passed to it. After
create_brake_chart, create_laptime_chart or create_final_laps_chart
returns, every pre-existing frame of the heap is unchanged; and the
annotation overlays of the lap-time chart are attached on top of an
overlay-free figure, altering no other field and in particular none of the
plotted series. -/
theorem c8_builders_no_mutation (ht : List Telemetry) (hl hl2 : List (List Lap))
    (a b c d e f : ℕ) (i j k : ℕ)
    (hi : i < ht.length) (hj : j < hl.length) (hk : k < hl2.length) :
    (create_brake_chart ht a b).1.getD i [] = ht.getD i [] ∧
    (create_laptime_chart hl c d).1.getD j [] = hl.getD j [] ∧
    (create_final_laps_chart hl2 e f).1.getD k [] = hl2.getD k [] ∧
    ∃ f0 : Figure, f0.overlays = [] ∧
      (create_laptime_chart hl c d).2
        = (f0.add_vrect 53 56 "Safety Car").add_vline 58 "Final Lap" := by
  refine ⟨?_, ?_, ?_, ?_⟩
  · simp only [create_brake_chart]
    exact getD_heap_preserve _ _ _ _ _ _ i hi
  · simp only [create_laptime_chart]
    exact getD_heap_preserve _ _ _ _ _ _ j hj
  · simp only [create_final_laps_chart]
    exact getD_heap_preserve _ _ _ _ _ _ k hk
  · refine ⟨{ (create_laptime_chart hl c d).2 with overlays := [] }, rfl, ?_⟩
    have hov : (create_laptime_chart hl c d).2.overlays
        = [Overlay.vrect 53 56 "Safety Car", Overlay.vline 58 "Final Lap"] := by
      simp [create_laptime_chart, Figure.empty, Figure.add_trace,
        Figure.add_vrect, Figure.add_vline, Figure.update_layout]
    simp only [Figure.add_vrect, Figure.add_vline, List.nil_append,
      List.cons_append]
    rw [← hov]

/-- Witness for C8 on concrete heaps: the input frames of the demo brake
heap and the demo lap heaps are unchanged after the builders run. -/
theorem c8_builders_no_mutation_witness :
    (create_brake_chart demoBrakeHeap 0 1).1.getD 0 [] = demoBrakeHeap.getD 0 [] ∧
    (create_laptime_chart demoHD 0 1).1.getD 1 [] = demoHD.getD 1 [] ∧
    (create_final_laps_chart demoFull 0 1).1.getD 0 [] = demoFull.getD 0 [] ∧
    ∃ f0 : Figure, f0.overlays = [] ∧
      (create_laptime_chart demoHD 0 1).2
        = (f0.add_vrect 53 56 "Safety Car").add_vline 58 "Final Lap" :=
  c8_builders_no_mutation demoBrakeHeap demoHD demoFull 0 1 0 1 0 1 0 1 0
    (by decide) (by decide) (by decide)

/-- Witness for C1 on the demo lap table: driver X has zero laps, the only
lap of driver N has a null time, and for driver B the returned lap time is
86.5 seconds, the minimum of 91.0, 87.0 and 86.5. -/
theorem c1_fastest_lap_selection_witness :
    select_fastest_lap demoLaps "X" = Except.error AppError.noLapsFound ∧
    select_fastest_lap demoLaps "N" = Except.error AppError.noCompletedLap ∧
    (select_fastest_lap demoLaps "B").map Lap.lapTime
      = Except.ok (some (Timedelta.ofMinSecMs 1 26 500)) := by
  refine ⟨(c1_fastest_lap_selection demoLaps "X").1 (by decide),
          (c1_fastest_lap_selection demoLaps "N").2.1 (by decide) (by decide),
          ?_⟩
  have h := (c1_fastest_lap_selection demoLaps "B").2.2 (by decide)
  decide

/-- Claim C9: the race-position chart always renders its y-axis inverted,
so a numerically lower race position is drawn higher than a numerically
higher one. -/
theorem c9_position_chart_inverted (session : List Lap) (p q : ℚ)
    (hpq : p < q) :
    (create_position_chart session).yReversed = true ∧
    drawnHeight (create_position_chart session) q
      < drawnHeight (create_position_chart session) p := by
  have hrev : (create_position_chart session).yReversed = true := by
    simp [create_position_chart, Figure.empty, Figure.add_trace,
      Figure.add_vline, Figure.update_layout]
  refine ⟨hrev, ?_⟩
  simp only [drawnHeight, hrev, if_true]
  linarith

/-- Witness for C9: on the demo table, position 1 is drawn higher than
position 2. -/
theorem c9_position_chart_inverted_witness :
    (1 : ℚ) < 2 ∧
    ((create_position_chart demoLaps).yReversed = true ∧
      drawnHeight (create_position_chart demoLaps) 2
        < drawnHeight (create_position_chart demoLaps) 1) :=
  ⟨by norm_num, c9_position_chart_inverted demoLaps 1 2 (by norm_num)⟩

/-- Claim C3: a stint record whose compound lies outside the fixed palette
of Soft, Medium and Hard makes the tyre-strategy bar loop fail with the
unknown-compound error rather than render any bar with a default color. -/
theorem c3_unknown_compound (rows : List StintRecord) (r : StintRecord)
    (hr : r ∈ rows)
    (hc : r.tyre ≠ "Soft" ∧ r.tyre ≠ "Medium" ∧ r.tyre ≠ "Hard") :
    ∃ c, strategyBars rows = Except.error (AppError.unknownCompound c) ∧
      colors c = none := by
  have hcc : colors r.tyre = none := by
    obtain ⟨h1, h2, h3⟩ := hc
    simp [colors, h1, h2, h3]
  clear hc
  induction rows with
  | nil => cases hr
  | cons x xs ih =>
    rcases List.mem_cons.mp hr with rfl | hx
    · exact ⟨r.tyre, by simp [strategyBars, hcc], hcc⟩
    · cases hx' : colors x.tyre with
      | none => exact ⟨x.tyre, by simp [strategyBars, hx'], hx'⟩
      | some col =>
        obtain ⟨c, hcs, hcn⟩ := ih hx
        refine ⟨c, ?_, hcn⟩
        simp [strategyBars, hx', hcs]

/-- Witness for C3: a stint with compound Intermediate makes the strategy
bar loop fail with the unknown-compound error. -/
theorem c3_unknown_compound_witness :
    ∃ c, strategyBars [demoIntermediateStint]
        = Except.error (AppError.unknownCompound c) ∧ colors c = none :=
  c3_unknown_compound [demoIntermediateStint] demoIntermediateStint
    (by decide) (by decide)

/-- Claim C4: in the static stint table, for each driver the stint ranges,
start inclusive and end exclusive, tile the race contiguously from lap 0 to
lap 58 with no overlap and no gap, and each record is rendered as a bar at
the row given by its per-record sequence index, not by driver. -/
theorem c4_stint_partition :
    chainB (stintsOf "HAM") 0 58 = true ∧
    chainB (stintsOf "VER") 0 58 = true ∧
    pairwiseDisjointB (stintsOf "HAM") = true ∧
    pairwiseDisjointB (stintsOf "VER") = true ∧
    coverB (stintsOf "HAM") 58 = true ∧
    coverB (stintsOf "VER") 58 = true ∧
    pit_data.map StintRecord.stint = List.range pit_data.length ∧
    (strategyBars pit_data).map (fun bars => bars.map Bar.y)
      = Except.ok (List.range pit_data.length) := by
  decide

/-- Counterexample for C7: the dispatcher does not catch selector failures
at the granularity of one chart. On a session where HAM has no laps, the
fastest-lap selection inside get_telemetry_data fails and the whole run of
main returns the error, rendering none of the charts of the requested
section instead of substituting a warning for the failing one. -/
theorem c7_counterexample :
    main AppSection.racePace (Except.ok demoVerOnly)
      = Except.error AppError.noLapsFound := by
  decide

/-- Claim C7 as amended: only the final-lap telemetry chart of the Final
Moments section is guarded. A failure of get_telemetry_data propagates out
of main unchanged for every section, while a failure of the guarded
final-lap block is replaced by a warning message and the rest of the Final
Moments section, in particular the position chart, still renders. -/
theorem c7_dispatcher_guard :
    (∀ (session : List Lap) (e : AppError),
        get_telemetry_data session = Except.error e →
        ∀ sec, main sec (Except.ok session) = Except.error e) ∧
    (∀ (session : List Lap) (vt ht : Telemetry) (vl hl : List Lap)
        (e : AppError),
        get_telemetry_data session = Except.ok (vt, ht, vl, hl) →
        lap58Chart session = Except.error e →
        main AppSection.finalMoments (Except.ok session)
          = Except.ok [Output.chart (create_position_chart session),
                       Output.text lap58Header,
                       Output.warningMsg finalLapWarning,
                       Output.text decisiveText]) := by
  constructor
  · intro session e hge sec
    simp [main, load_race_data, hge]
  · intro session vt ht vl hl e hge h58
    simp [main, load_race_data, hge, h58]

/-- Witness for the amended C7: on a session whose drivers completed only
lap 1, the guarded final-lap block fails, main substitutes the warning and
still renders the position chart and the surrounding texts. -/
theorem c7_dispatcher_guard_witness :
    main AppSection.finalMoments (Except.ok demoNo58)
      = Except.ok [Output.chart (create_position_chart demoNo58),
                   Output.text lap58Header,
                   Output.warningMsg finalLapWarning,
                   Output.text decisiveText] :=
  c7_dispatcher_guard.2 demoNo58 [] [] (pick_drivers demoNo58 "VER")
    (pick_drivers demoNo58 "HAM") AppError.lapNotFound (by decide) (by decide)

/-- Claim C10: when the session load raises, load_race_data returns None
together with its own error message, and main then emits only error
messages and returns: no data selector runs and no chart output is ever
produced from a session that failed to load. -/
theorem c10_load_failure (sec : AppSection) (e : String) :
    load_race_data (Except.error e)
      = (none, [Output.errorMsg ("Error loading data: " ++ e)]) ∧
    main sec (Except.error e)
      = Except.ok [Output.errorMsg ("Error loading data: " ++ e),
                   Output.errorMsg failedLoadMsg] ∧
    (main sec (Except.error e)).map (fun outs => outs.all chartFree)
      = Except.ok true := by
  exact ⟨rfl, rfl, rfl⟩

end F1
